import Mathlib

/-
  Shallow embedding of the channel-adapter layer of the courier messaging
  gateway (packages freshchat, handlers/zenvia, handlers/zenviawhatsapp,
  handlers/slack, utils), together with theorems about the embedded
  operations.  Go strings are modelled as lists of characters; machine
  integers do not occur in the modelled code paths.  External collaborators
  (the HTTP transport, the JSON codec, the crypto library and the urns
  library) are modelled as explicit oracle parameters so that every
  definition stays executable.
-/

namespace Courier

/-- Character-list representation of a Go string value. -/
abbrev Str := List Char

/-- Canonical message status values of the courier package
(MsgWired, MsgSent, MsgDelivered, MsgFailed, MsgErrored). -/
inductive MsgStatusValue where
  | wired
  | sent
  | delivered
  | failed
  | errored
  deriving DecidableEq, Repr

/-- Canonical URN: scheme plus opaque path plus optional display name,
as produced by urns.NewURNFromParts. -/
structure URN where
  scheme : String
  path : Str
  display : Str
  deriving DecidableEq, Repr

/-- Canonical inbound message as built by Backend().NewIncomingMsg and the
WithX builder methods. -/
structure IncomingMsg where
  urn : URN
  text : Str
  attachments : List Str
  externalID : Option Str
  receivedOn : Option Nat
  contactName : Option Str
  deriving DecidableEq, Repr

/-- Embedding of Backend().NewIncomingMsg(channel, urn, text). -/
def newIncomingMsg (urn : URN) (text : Str) : IncomingMsg :=
  ⟨urn, text, [], none, none, none⟩

/-- Embedding of Msg.WithReceivedOn; instants are opaque Nat values. -/
def withReceivedOn (m : IncomingMsg) (d : Nat) : IncomingMsg :=
  { m with receivedOn := some d }

/-- Embedding of Msg.WithExternalID. -/
def withExternalID (m : IncomingMsg) (id : Str) : IncomingMsg :=
  { m with externalID := some id }

/-- Embedding of Msg.WithContactName. -/
def withContactName (m : IncomingMsg) (n : Str) : IncomingMsg :=
  { m with contactName := some n }

/-- Embedding of Msg.WithAttachment: appends one attachment URL. -/
def withAttachment (m : IncomingMsg) (url : Str) : IncomingMsg :=
  { m with attachments := m.attachments ++ [url] }

/-- One ChannelLog entry: courier.NewChannelLogFromRR(description, ...)
optionally carrying an error recorded by WithError. -/
structure ChannelLog where
  description : String
  errorMsg : Option String
  deriving DecidableEq, Repr

/-- Embedding of a courier.MsgStatus value as built by
Backend().NewMsgStatusForID: the status value, the append-only log trail
(Go code may append a nil log pointer, hence the Option), and the external
id set by SetExternalID. -/
structure OutMsgStatus where
  value : MsgStatusValue
  logs : List (Option ChannelLog)
  externalID : Option String
  deriving DecidableEq, Repr

/-- Result of one SendMsg call: the returned MsgStatus (none when the Go
code returns a nil status), the returned error value, and the number of
HTTP calls the adapter attempted. -/
structure SendResult where
  status : Option OutMsgStatus
  retErr : Option String
  calls : Nat
  deriving DecidableEq, Repr

/-- Outcome of one inbound webhook handler invocation: a Go panic, an
error response, an acknowledged ignored event, or a list of canonical
messages handed to the backend. -/
inductive HandlerOutcome where
  | panicked (msg : String)
  | error (msg : String)
  | ignored (note : String)
  | msgs (ms : List IncomingMsg)
  deriving DecidableEq, Repr

/-- Canonical messages produced by a handler outcome; panics, errors and
ignored events produce none. -/
def eventMsgs : HandlerOutcome → List IncomingMsg
  | .msgs ms => ms
  | _ => []

/-- Modelled from the spec: handlers.SplitMsg is defined in the upstream
handlers package and is not part of this repository; per the spec, long
text is subdivided by a provider-specific maximum length with a split that
is lossless under concatenation, every part at most the maximum.  A zero
maximum (never used: the providers configure 150 and 1152) returns the
text unsplit. -/
def splitMsg (text : Str) (maxLen : Nat) : List Str :=
  if text.length ≤ maxLen ∨ maxLen = 0 then [text]
  else text.take maxLen :: splitMsg (text.drop maxLen) maxLen
termination_by text.length
decreasing_by
  simp only [List.length_drop]
  omega

/-- Modelled from the spec: handlers.SplitMsgByChannel is defined in the
upstream handlers package and is not part of this repository; it uses a
per-channel configured maximum length when present, the default otherwise. -/
def splitMsgByChannel (configuredMax : Option Nat) (text : Str) (defaultMax : Nat) :
    List Str :=
  splitMsg text (configuredMax.getD defaultMax)

/-- Shallow embedding of Go strings.ToUpper (character-wise upper-casing,
as the provider codes and type tags are ASCII). -/
def goToUpper (s : String) : String :=
  ⟨s.data.map Char.toUpper⟩

/-- Shallow embedding of Go strings.Split for a single-character separator,
as used by strings.Split(path, "/") in the FreshChat send pipeline.  Go
always returns at least one field; splitting a string that does not contain
the separator yields exactly one field. -/
def goSplit (sep : Char) : Str → List Str
  | [] => [[]]
  | c :: rest =>
    match goSplit sep rest with
    | [] => [[]]
    | f :: fs => if c = sep then [] :: f :: fs else (c :: f) :: fs

/-- Outcome of freshchat validateSignature: success, a recoverable error
returned to the caller, or a Go panic aborting the request. -/
inductive SigOutcome where
  | ok
  | err (msg : String)
  | panicked (msg : String)
  deriving DecidableEq, Repr

/-- Oracle for the external crypto libraries used by validateSignature.
pemDecode models pem.Decode (none models a nil block, e.g. for input
holding no PEM block such as the empty string); parsePKIX models
x509.ParsePKIXPublicKey with keys as opaque Nat handles; sha256 models the
SHA-256 digest of the body bytes; b64Decode models
base64.StdEncoding.DecodeString; rsaVerify models rsa.VerifyPKCS1v15. -/
structure CryptoEnv where
  pemDecode : String → Option (List Nat)
  parsePKIX : List Nat → Except String Nat
  sha256 : Str → List Nat
  b64Decode : String → Option (List Nat)
  rsaVerify : Nat → List Nat → List Nat → Bool

namespace Freshchat

/-- Embedding of freshchat handler.validateSignature (freshchat.go lines
183 to 222).  The body buffering (ioutil.ReadAll over an in-memory buffer)
and the hash WriteTo cannot fail for in-memory byte readers, so those two
error branches are unreachable and not modelled.  When pem.Decode returns a
nil block the Go code dereferences block.Bytes and aborts with a nil
pointer dereference; when the DER parse fails the Go code calls panic
explicitly. -/
def validateSignature (env : CryptoEnv) (validateSignatures : Bool)
    (rsaPubKey : String) (signatureHeader : String) (body : Str) : SigOutcome :=
  if !validateSignatures then .ok
  else if signatureHeader = "" then .err "missing request signature"
  else
    match env.pemDecode rsaPubKey with
    | none => .panicked "runtime error: invalid memory address or nil pointer dereference"
    | some blockBytes =>
      match env.parsePKIX blockBytes with
      | .error e => .panicked ("failed to parse DER encoded public key: " ++ e)
      | .ok pub =>
        match env.b64Decode signatureHeader with
        | none => .err "unable to decode base64 signature"
        | some sig =>
          if env.rsaVerify pub (env.sha256 body) sig then .ok
          else .err "unable to verify signature"

/-- Embedding of the freshchat moPayload Text part. -/
structure TextPart where
  content : Str
  deriving DecidableEq, Repr

/-- Embedding of the freshchat moPayload Image part. -/
structure ImagePart where
  url : Str
  deriving DecidableEq, Repr

/-- Embedding of freshchat MessageParts: each part optionally carries a
text and optionally an image, mirroring the two nullable pointers. -/
structure MessagePart where
  text : Option TextPart
  image : Option ImagePart
  deriving DecidableEq, Repr

/-- Embedding of the freshchat Message payload shape (only the fields the
handler reads). -/
structure Message where
  messageParts : List MessagePart
  actorID : Str
  channelID : Str
  actorType : String
  createdTime : Nat
  deriving DecidableEq, Repr

/-- Embedding of the freshchat moPayload: Data.Message is a nullable
pointer, modelled as an Option. -/
structure MoPayload where
  message : Option Message
  deriving DecidableEq, Repr

/-- Oracle for the external urns library call
urns.NewURNFromParts(scheme, path, "", ""); none models the error return. -/
structure Env where
  crypto : CryptoEnv
  newURNFromParts : String → Str → Option URN

/-- Last-wins fold over the message parts (freshchat.go lines 87 to 97):
text is overwritten by each part carrying a text, mediaURL by each part
carrying an image. -/
def partsFold (acc : Str × Str) (part : MessagePart) : Str × Str :=
  (match part.text with
   | some t => t.content
   | none => acc.1,
   match part.image with
   | some i => i.url
   | none => acc.2)

/-- Embedding of freshchat handler.receiveMessage (freshchat.go lines 53
to 107).  The JSON decode result is supplied as an Option (none models a
DecodeAndValidateJSON failure); channel.Schemes() is the configured scheme
list, indexed at 0. -/
def receiveMessage (env : Env) (validateSignatures : Bool)
    (configPassword : String) (signatureHeader : String) (rawBody : Str)
    (decoded : Option MoPayload) (schemes : List String) : HandlerOutcome :=
  match validateSignature env.crypto validateSignatures configPassword
      signatureHeader rawBody with
  | .panicked m => .panicked m
  | .err m => .error m
  | .ok =>
    match decoded with
    | none => .error "unable to parse request JSON"
    | some payload =>
      match payload.message with
      | none => .panicked "runtime error: invalid memory address or nil pointer dereference"
      | some message =>
        if message.actorID = [] then .ignored "Ignoring request, no message"
        else if message.actorType = "agent" then .ignored "Ignoring request, Agent Message"
        else
          let date := message.createdTime
          match schemes with
          | [] => .panicked "runtime error: index out of range"
          | scheme :: _ =>
            let urnPath := message.channelID ++ ('/' :: message.actorID)
            match env.newURNFromParts scheme urnPath with
            | none => .error "invalid urn"
            | some urn =>
              let tm := message.messageParts.foldl partsFold ([], [])
              let msg := withReceivedOn (newIncomingMsg urn tm.1) date
              let msg := if tm.2 ≠ [] then withAttachment msg tm.2 else msg
              .msgs [msg]

/-- Transport oracle outcome for the single HTTP call of the freshchat
send pipeline: a transport-level error or a response. -/
inductive TransportResult where
  | err (e : String)
  | ok
  deriving DecidableEq, Repr

/-- Result of freshchat SendMsg: the Go code can panic while building the
payload (indexing user[1]); otherwise it returns a status and an error. -/
inductive SendOutcome where
  | panicked (msg : String) (calls : Nat)
  | returned (r : SendResult)
  deriving DecidableEq, Repr

/-- Embedding of freshchat handler.SendMsg (freshchat.go lines 109 to
181).  The destination URN path is split on "/"; the payload literal reads
user[0] as the channel id and user[1] as the user id, so a path with fewer
than two fields aborts with an index out of range panic.  The request body
content (text part and first attachment) does not influence the returned
status and is not recorded.  On a transport error the status keeps its
initial errored value, the log records the error, and the error is
returned; otherwise the status is set to wired. -/
def sendMsg (transport : TransportResult) (agentID authToken : String)
    (urnPath : Str) : SendOutcome :=
  if agentID = "" then
    .returned ⟨none, some "missing agent_id config for FC channel", 0⟩
  else if authToken = "" then
    .returned ⟨none, some "missing auth_token config for FC channel", 0⟩
  else
    let user := goSplit '/' urnPath
    let status : OutMsgStatus := ⟨.errored, [], none⟩
    if user.length < 2 then .panicked "runtime error: index out of range" 0
    else
      match transport with
      | .err e =>
        .returned ⟨some { status with logs := [some ⟨"Message Sent", some e⟩] },
          some e, 1⟩
      | .ok =>
        .returned ⟨some { status with
          value := .wired, logs := [some ⟨"Message Sent", none⟩] }, none, 1⟩

end Freshchat

namespace Zenvia

/-- Embedding of the zenvia statusMapping table (zenvia.go lines 111 to
123): two-digit provider codes to canonical status values. -/
def statusMapping : List (String × MsgStatusValue) :=
  [("00", .sent), ("01", .sent), ("02", .sent), ("03", .delivered),
   ("04", .errored), ("05", .errored), ("06", .errored), ("07", .errored),
   ("08", .errored), ("09", .errored), ("10", .errored)]

/-- Embedding of the status lookup of handler.StatusMessage (zenvia.go
lines 165 to 168): a code absent from the table maps to errored. -/
def mapStatus (code : String) : MsgStatusValue :=
  match statusMapping.lookup code with
  | some s => s
  | none => .errored

/-- Transport oracle outcome for one zenvia send call: a transport error,
or a response body whose sendSmsResponse.statusCode field is extracted by
jsonparser.GetString (none models a missing field, read as the empty
string since the parse error is discarded). -/
inductive Resp where
  | err (e : String)
  | ok (statusCode : Option String)
  deriving DecidableEq, Repr

/-- Per-part send loop of zenvia handler.SendMsg (zenvia.go lines 195 to
234): each part issues one HTTP call, appends a log, aborts with the error
on a transport failure, aborts with a provider error when the response
status code is absent from the table or maps to errored, and otherwise
sets the status to wired and continues. -/
def sendLoop (transport : Nat → Resp) :
    List Str → Nat → OutMsgStatus → SendResult
  | [], k, status => ⟨some status, none, k⟩
  | _part :: rest, k, status =>
    match transport k with
    | .err e =>
      ⟨some { status with logs := status.logs ++ [some ⟨"Message Sent", some e⟩] },
       some e, k + 1⟩
    | .ok code? =>
      let st := { status with logs := status.logs ++ [some ⟨"Message Sent", none⟩] }
      let responseMsgStatus := code?.getD ""
      match statusMapping.lookup responseMsgStatus with
      | none =>
        ⟨some st,
         some ("received non-success response from Zenvia " ++ responseMsgStatus),
         k + 1⟩
      | some ms =>
        if ms = .errored then
          ⟨some st,
           some ("received non-success response from Zenvia " ++ responseMsgStatus),
           k + 1⟩
        else sendLoop transport rest (k + 1) { st with value := .wired }

/-- Embedding of zenvia handler.SendMsg (zenvia.go lines 182 to 237).
outText is the value of courier.GetTextAndAttachments(msg), the outbound
text with the attachment URLs appended (that helper lives in the upstream
courier package, outside this repository); it is split into parts of at
most 150 characters and sent sequentially. -/
def sendMsg (transport : Nat → Resp) (username password : String)
    (outText : Str) : SendResult :=
  if username = "" then ⟨none, some "no username set for ZV channel", 0⟩
  else if password = "" then ⟨none, some "no password set for ZV channel", 0⟩
  else sendLoop transport (splitMsg outText 150) 0 ⟨.errored, [], none⟩

end Zenvia

namespace ZenviaWhatsapp

/-- Embedding of the zenviawhatsapp moContent payload shape.  Latitude and
longitude are float32 values in the source; they are kept opaque in the
type parameter g and only ever rendered through a formatting oracle. -/
structure MoContent (g : Type) where
  type : String
  text : Str
  payload : Str
  fileURL : Str
  fileMimeType : Str
  fileCaption : Str
  fileName : Str
  longitude : g
  latitude : g
  name : Str
  address : Str
  url : Str
  deriving DecidableEq, Repr

/-- Embedding of the zenviawhatsapp moPayload Message object (fields the
handler reads). -/
structure MoMessage (g : Type) where
  id : Str
  fromAddr : Str
  toAddr : Str
  direction : String
  channel : Str
  contents : List (MoContent g)
  deriving DecidableEq, Repr

/-- Embedding of the zenviawhatsapp moPayload. -/
structure MoPayload (g : Type) where
  id : Str
  timestamp : String
  type : String
  message : MoMessage g
  visitorName : Str
  deriving DecidableEq, Repr

/-- Oracles for the externals of the zenviawhatsapp receive pipeline:
parseTimestamp models time.Parse with layout 2006-01-02T15:04:05Z (the
resulting UTC instant is an opaque Nat); newWhatsAppURN models
urns.NewWhatsAppURN; formatFloat models fmt.Sprintf %f on a float32. -/
structure Env (g : Type) where
  parseTimestamp : String → Option Nat
  newWhatsAppURN : Str → Option URN
  formatFloat : g → String

/-- Location attachment URL synthesized for a location content part:
geo:latitude,longitude with both coordinates rendered by the float
formatting oracle. -/
def geoURL (env : Env g) (c : MoContent g) : Str :=
  "geo:".toList ++ (env.formatFloat c.latitude).toList
    ++ (',' :: (env.formatFloat c.longitude).toList)

/-- Canonical message built for one content part of an inbound
zenviawhatsapp event (zenviawhatsapp receiveMessage body of the contents
loop): a text part fills the text, a location part attaches a geo URL, a
file part attaches the file URL, any other part type is logged and adds
nothing. -/
def contentMsg (env : Env g) (urn : URN) (date : Nat) (externalID : Str)
    (contactName : Str) (c : MoContent g) : IncomingMsg :=
  let text := if c.type = "text" then c.text else []
  let mediaURL :=
    if c.type = "text" then []
    else if c.type = "location" then geoURL env c
    else if c.type = "file" then c.fileURL
    else []
  let m := withContactName
    (withReceivedOn (withExternalID (newIncomingMsg urn text) externalID) date)
    contactName
  if mediaURL ≠ [] then withAttachment m mediaURL else m

/-- Embedding of zenviawhatsapp handler.receiveMessage (lines 78 to 137 of
the file): an event whose type is not MESSAGE is rejected as an error, a
bad timestamp is rejected as an error, a non-incoming direction is
acknowledged as ignored, and otherwise the contents list fans out into one
canonical message per content part. -/
def receiveMessage (env : Env g) (payload : MoPayload g) : HandlerOutcome :=
  if goToUpper payload.type ≠ "MESSAGE" then
    .error ("unsupported event type: " ++ payload.type)
  else
    match env.parseTimestamp payload.timestamp with
    | none => .error ("invalid date format: " ++ payload.timestamp)
    | some date =>
      if goToUpper payload.message.direction ≠ "IN" then
        .ignored "ignoring request, not incoming messages"
      else
        match env.newWhatsAppURN payload.message.fromAddr with
        | none => .error "invalid whatsapp urn"
        | some urn =>
          .msgs (payload.message.contents.map
            (contentMsg env urn date payload.message.id payload.visitorName))

/-- Embedding of the zenviawhatsapp statusMapping table (lines 139 to 145
of the file). -/
def statusMapping : List (String × MsgStatusValue) :=
  [("REJECTED", .failed), ("NOT_DELIVERED", .failed), ("SENT", .sent),
   ("DELIVERED", .delivered), ("READ", .delivered)]

/-- Embedding of the status lookup of handler.receiveStatus (lines 170 to
173 of the file): the code is upper-cased before lookup and a code absent
from the table maps to errored. -/
def mapStatus (code : String) : MsgStatusValue :=
  match statusMapping.lookup (goToUpper code) with
  | some s => s
  | none => .errored

/-- One outbound content entry of the zenviawhatsapp mtPayload. -/
structure MtContent where
  type : String
  text : Str
  fileURL : Str
  fileMimeType : Str
  deriving DecidableEq, Repr

/-- Transport oracle outcome for the single zenviawhatsapp send call: a
transport error, or a response body whose id field is extracted by
jsonparser.GetString (none models a missing id). -/
inductive Resp where
  | err (e : String)
  | ok (id : Option String)
  deriving DecidableEq, Repr

/-- Result of zenviawhatsapp SendMsg, additionally recording the contents
list of the single request payload (one file entry per attachment followed
by one text entry per split part). -/
structure WSendResult where
  payloadContents : List MtContent
  status : Option OutMsgStatus
  retErr : Option String
  calls : Nat
  deriving DecidableEq, Repr

/-- Embedding of zenviawhatsapp handler.SendMsg (lines 198 to 268 of the
file).  splitAttachment models handlers.SplitAttachment from the upstream
handlers package (mime type and URL of one stored attachment).  All parts
travel in one request: attachments as file contents, then the text split
by SplitMsgByChannel with default maximum 1152.  A transport error, and a
response without an id, leave the status errored with the error recorded
in the log, and return a nil error; on success the status receives the
external id and is set to wired. -/
def sendMsg (splitAttachment : Str → Str × Str) (transport : Resp)
    (token : String) (_urnPath : Str) (text : Str) (attachments : List Str)
    (configuredMax : Option Nat) : WSendResult :=
  if token = "" then ⟨[], none, some "no token set for ZVW channel", 0⟩
  else
    let fileContents := attachments.map (fun a =>
      let p := splitAttachment a
      ({ type := "file", text := [], fileURL := p.2, fileMimeType := p.1 } : MtContent))
    let msgParts := if text ≠ [] then splitMsgByChannel configuredMax text 1152 else []
    let contents := fileContents ++ msgParts.map
      (fun p => ({ type := "text", text := p, fileURL := [], fileMimeType := [] } : MtContent))
    let status : OutMsgStatus := ⟨.errored, [], none⟩
    match transport with
    | .err e =>
      ⟨contents, some { status with logs := [some ⟨"Message Sent", some e⟩] }, none, 1⟩
    | .ok id? =>
      match id? with
      | none =>
        ⟨contents,
         some { status with logs := [some ⟨"Message Sent", some "unable to get id from body"⟩] },
         none, 1⟩
      | some id =>
        ⟨contents,
         some { value := .wired, logs := [some ⟨"Message Sent", none⟩],
                externalID := some id },
         none, 1⟩

end ZenviaWhatsapp

namespace Slack

/-- Transport oracle outcome for one slack HTTP call, indexed by call
order.  fetchResp is the body of the GET of an attachment URL; uploadResp
is the files.upload response as decoded into a FileResponse by
json.Unmarshal (none models invalid JSON, otherwise the OK flag and the
error string); postResp is the chat.postMessage response as read by
jsonparser (the ok boolean when present, and the error string field when
present). -/
inductive CallResult where
  | transportErr (e : String)
  | fetchResp (body : Str)
  | uploadResp (parsed : Option (Bool × String))
  | postResp (okFlag : Option Bool) (errStr : Option String)
  deriving DecidableEq, Repr

/-- Oracles for the externals of the slack send pipeline: the transport
(one CallResult per HTTP call, in call order), handlers.SplitAttachment
and utils.BasePathForURL from the upstream packages, and the success of
http.NewRequest on the attachment URL (it fails only for a malformed
URL). -/
structure Env where
  oracle : Nat → CallResult
  splitAttachment : Str → Str × Str
  basePathForURL : Str → Option Str
  validURL : Str → Bool

/-- Embedding of the slack FileParams struct. -/
structure FileParams where
  file : Str
  fileName : Str
  channels : Str
  deriving DecidableEq, Repr

/-- Embedding of slack parseAttachmentToFileParams (slack.go lines 680 to
699).  Returns the file params, the channel log, the error, and the next
call index.  A transport error while fetching the attachment is recorded
in the log but the err variable is then overwritten by the
BasePathForURL call, so the function still returns nil error and file
params holding the empty body. -/
def parseAttachmentToFileParams (env : Env) (k : Nat) (urnPath : Str)
    (attachment : Str) :
    Option FileParams × Option ChannelLog × Option String × Nat :=
  let attURL := (env.splitAttachment attachment).2
  if !env.validURL attURL then
    (none, none, some "error building file request", k)
  else
    match env.oracle k with
    | .fetchResp body =>
      let log := some (⟨"Fetching attachment", none⟩ : ChannelLog)
      match env.basePathForURL attURL with
      | none => (none, log, some "error getting base path", k + 1)
      | some name => (some ⟨body, name, urnPath⟩, log, none, k + 1)
    | .transportErr e =>
      let log := some (⟨"Fetching attachment", some e⟩ : ChannelLog)
      match env.basePathForURL attURL with
      | none => (none, log, some "error getting base path", k + 1)
      | some name => (some ⟨[], name, urnPath⟩, log, none, k + 1)
    | _ =>
      (none, some ⟨"Fetching attachment", some "unexpected response"⟩,
       some "unexpected response", k + 1)

/-- Embedding of slack sendFilePart (slack.go lines 701 to 747): the
multipart body construction and the request to the constant upload URL
always succeed; a transport error or a non-OK FileResponse is returned as
an error with a nil log, a success returns the upload log. -/
def sendFilePart (env : Env) (k : Nat) :
    Option ChannelLog × Option String × Nat :=
  match env.oracle k with
  | .transportErr e => (none, some ("error uploading file to slack: " ++ e), k + 1)
  | .uploadResp none => (none, some "could not unmarshal file response", k + 1)
  | .uploadResp (some (okFlag, errStr)) =>
    if !okFlag then (none, some ("error uploading file to slack: " ++ errStr), k + 1)
    else (some ⟨"uploading file to Slack", none⟩, none, k + 1)
  | _ => (none, some "unexpected response", k + 1)

/-- Embedding of slack sendTextMsgPart (slack.go lines 641 to 678): the
log records the exchange (and a transport error); the ok flag of the
response decides success, with the error string of the body reported when
ok is false.  On a transport error the body is empty so the jsonparser
lookup of ok fails and that parse error is returned. -/
def sendTextMsgPart (env : Env) (k : Nat) :
    Option ChannelLog × Option String × Nat :=
  match env.oracle k with
  | .transportErr e =>
    (some ⟨"Message Sent", some e⟩, some "Key path not found", k + 1)
  | .postResp okFlag? errStr? =>
    let log := some (⟨"Message Sent", none⟩ : ChannelLog)
    match okFlag? with
    | none => (log, some "Key path not found", k + 1)
    | some true => (log, none, k + 1)
    | some false =>
      match errStr? with
      | none => (log, some "Key path not found", k + 1)
      | some e => (log, some e, k + 1)
  | _ => (some ⟨"Message Sent", none⟩, some "unexpected response", k + 1)

/-- One step of the attachments loop of slack SendMsg (slack.go lines 616
to 626): parse the attachment, overwrite hasError with the parse error
flag, append the log, and when file params were produced upload them,
again overwriting hasError with the upload error flag. -/
def attachmentStep (env : Env) (urnPath : Str)
    (acc : OutMsgStatus × Bool × Nat) (att : Str) : OutMsgStatus × Bool × Nat :=
  let status := acc.1
  let k := acc.2.2
  let r := parseAttachmentToFileParams env k urnPath att
  let status1 := { status with logs := status.logs ++ [r.2.1] }
  let hasError1 := (r.2.2.1).isSome
  match r.1 with
  | none => (status1, hasError1, r.2.2.2)
  | some _fp =>
    let s := sendFilePart env r.2.2.2
    ({ status1 with logs := status1.logs ++ [s.1] }, (s.2.1).isSome, s.2.2)

/-- Embedding of slack handler.SendMsg (slack.go lines 606 to 639).  The
status starts errored and hasError starts true; each attachment part and
then the text part overwrite hasError with their own outcome; the status
is set to wired when hasError is false at the end, and the returned error
value is always nil. -/
def sendMsg (env : Env) (botToken : String) (urnPath : Str) (text : Str)
    (attachments : List Str) : SendResult :=
  if botToken = "" then ⟨none, some "missing bot token for SL/slack channel", 0⟩
  else
    let init : OutMsgStatus × Bool × Nat := (⟨.errored, [], none⟩, true, 0)
    let afterAtts := attachments.foldl (attachmentStep env urnPath) init
    let afterText :=
      if text ≠ [] then
        let t := sendTextMsgPart env afterAtts.2.2
        ({ afterAtts.1 with logs := afterAtts.1.logs ++ [t.1] }, (t.2.1).isSome, t.2.2)
      else afterAtts
    let final :=
      if !afterText.2.1 then { afterText.1 with value := .wired } else afterText.1
    ⟨some final, none, afterText.2.2⟩

end Slack

/-! Specification-level helper definitions used by the theorems. -/

/-- Content of the last message part carrying a text, empty when no part
does: the value the last-wins fold of the freshchat receive loop leaves in
the text variable. -/
def lastTextOf (parts : List Freshchat.MessagePart) : Str :=
  (((parts.filterMap Freshchat.MessagePart.text).getLast?).map
    Freshchat.TextPart.content).getD []

/-- URL of the last message part carrying an image, empty when no part
does. -/
def lastImageOf (parts : List Freshchat.MessagePart) : Str :=
  (((parts.filterMap Freshchat.MessagePart.image).getLast?).map
    Freshchat.ImagePart.url).getD []

/-- Fan-out property of the zenviawhatsapp receive pipeline: the handler
produces one canonical message per content part, every message shares the
sender URN, received instant, contact name and external id, and each part
type populates its message as documented (text fills the text, a file
attaches its URL, a location attaches the synthesized geo URL). -/
def ZvwFanoutProp {g : Type} (env : ZenviaWhatsapp.Env g)
    (payload : ZenviaWhatsapp.MoPayload g) (urn : URN) (date : Nat) : Prop :=
  ∃ ms, ZenviaWhatsapp.receiveMessage env payload = .msgs ms
    ∧ ms.length = payload.message.contents.length
    ∧ (∀ m ∈ ms, m.urn = urn ∧ m.receivedOn = some date
        ∧ m.contactName = some payload.visitorName
        ∧ m.externalID = some payload.message.id)
    ∧ (∀ i c m, payload.message.contents.get? i = some c → ms.get? i = some m →
        (c.type = "text" → m.text = c.text ∧ m.attachments = [])
        ∧ (c.type = "file" → m.text = [] ∧
            m.attachments = if c.fileURL = [] then [] else [c.fileURL])
        ∧ (c.type = "location" → m.text = [] ∧
            m.attachments = [ZenviaWhatsapp.geoURL env c]))

/-! Concrete fixtures used by witnesses and counterexamples. -/

/-- Crypto oracle for a channel whose public-key configuration value holds
no PEM block (for example the empty string): Go pem.Decode returns a nil
block for such input, modelled as none. -/
def nullKeyCrypto : CryptoEnv :=
  { pemDecode := fun _ => none
    parsePKIX := fun _ => .error "asn1: syntax error"
    sha256 := fun _ => []
    b64Decode := fun _ => none
    rsaVerify := fun _ _ _ => false }

/-- Freshchat oracle fixture: URN construction always succeeds. -/
def fcTestEnv : Freshchat.Env :=
  { crypto := nullKeyCrypto
    newURNFromParts := fun scheme path => some ⟨scheme, path, []⟩ }

/-- Freshchat webhook payload whose message carries an empty actor id. -/
def fcNoMsgPayload : Freshchat.MoPayload :=
  ⟨some ⟨[], [], "channel7".toList, "user", 99⟩⟩

/-- Freshchat webhook payload flagged as an agent message. -/
def fcAgentPayload : Freshchat.MoPayload :=
  ⟨some ⟨[], "actor9".toList, "channel7".toList, "agent", 99⟩⟩

/-- Freshchat message with several message parts: two texts and two
images, so that the last-wins collapse is observable. -/
def fcPartsMessage : Freshchat.Message :=
  ⟨[⟨some ⟨"first".toList⟩, none⟩,
    ⟨some ⟨"second".toList⟩, some ⟨"http://a/1.png".toList⟩⟩,
    ⟨none, some ⟨"http://a/2.png".toList⟩⟩],
   "actor9".toList, "channel7".toList, "user", 99⟩

/-- Freshchat webhook payload carrying the multi-part message. -/
def fcPartsPayload : Freshchat.MoPayload :=
  ⟨some fcPartsMessage⟩

/-- The URN the fixtures build for the multi-part freshchat event. -/
def fcWitURN : URN := ⟨"freshchat", "channel7/actor9".toList, []⟩

/-- Zenviawhatsapp oracle fixture over Nat coordinates: the timestamp of
the fixtures parses to instant 45, URN construction succeeds for non-empty
numbers, and floats format as decimal numerals. -/
def zvwTestEnv : ZenviaWhatsapp.Env Nat :=
  { parseTimestamp := fun s => if s = "2017-05-03T06:04:45Z" then some 45 else none
    newWhatsAppURN := fun p => if p = [] then none else some ⟨"whatsapp", p, []⟩
    formatFloat := fun n => toString n }

/-- One zenviawhatsapp content part of the given type with all other
fields empty and coordinates 1 and 2. -/
def zvwContent (type : String) (text fileURL : Str) : ZenviaWhatsapp.MoContent Nat :=
  { type := type, text := text, payload := [], fileURL := fileURL,
    fileMimeType := [], fileCaption := [], fileName := [],
    longitude := 2, latitude := 1, name := [], address := [], url := [] }

/-- Inbound zenviawhatsapp event carrying three content parts: a text, a
file and a location. -/
def zvwFanoutPayload : ZenviaWhatsapp.MoPayload Nat :=
  { id := "evt1".toList, timestamp := "2017-05-03T06:04:45Z", type := "MESSAGE",
    message := { id := "ext1".toList, fromAddr := "5511999999999".toList,
                 toAddr := "5511888888888".toList, direction := "IN", channel := [],
                 contents := [zvwContent "text" "hello".toList [],
                              zvwContent "file" [] "https://foo.bar/file.png".toList,
                              zvwContent "location" [] []] },
    visitorName := "ana".toList }

/-- The URN the fixtures build for the fan-out payload sender. -/
def zvwWitURN : URN := ⟨"whatsapp", "5511999999999".toList, []⟩

/-- Inbound zenviawhatsapp event of type MESSAGE whose direction is OUT. -/
def zvwOutPayload : ZenviaWhatsapp.MoPayload Nat :=
  { id := "evt2".toList, timestamp := "2017-05-03T06:04:45Z", type := "MESSAGE",
    message := { id := "ext2".toList, fromAddr := "5511999999999".toList,
                 toAddr := "5511888888888".toList, direction := "OUT", channel := [],
                 contents := [zvwContent "text" "hello".toList []] },
    visitorName := [] }

/-- Inbound event posted to the zenviawhatsapp receive route whose declared
type is MESSAGE_STATUS, not an inbound user message. -/
def zvwStatusTypePayload : ZenviaWhatsapp.MoPayload Nat :=
  { id := "evt3".toList, timestamp := "2017-05-03T06:04:45Z", type := "MESSAGE_STATUS",
    message := { id := "ext3".toList, fromAddr := "5511999999999".toList,
                 toAddr := "5511888888888".toList, direction := "IN", channel := [],
                 contents := [] },
    visitorName := [] }

/-- Slack oracle fixture for a send whose first part fails: the attachment
fetch succeeds (call 0), its upload is rejected by the provider (call 1),
and the text part succeeds (call 2). -/
def slackBugEnv : Slack.Env :=
  { oracle := fun k =>
      if k = 0 then .fetchResp []
      else if k = 1 then .uploadResp (some (false, "upload failed"))
      else .postResp (some true) none
    splitAttachment := fun a => ([], a)
    basePathForURL := fun _ => some "f".toList
    validURL := fun _ => true }

/-- Slack oracle fixture whose transport fails every call. -/
def slackFailEnv : Slack.Env :=
  { oracle := fun _ => .transportErr "connection refused"
    splitAttachment := fun a => ([], a)
    basePathForURL := fun _ => some "f".toList
    validURL := fun _ => true }

/-- Slack oracle fixture whose chat.postMessage call is accepted by the
transport but rejected in the payload (ok false with an error string). -/
def slackPostFailEnv : Slack.Env :=
  { oracle := fun _ => .postResp (some false) (some "channel_not_found")
    splitAttachment := fun a => ([], a)
    basePathForURL := fun _ => some "f".toList
    validURL := fun _ => true }

/-- Slack oracle fixture whose attachment fetch succeeds (call 0) and
whose files.upload call is rejected in the payload (call 1). -/
def slackUploadFailEnv : Slack.Env :=
  { oracle := fun k =>
      if k = 0 then .fetchResp [] else .uploadResp (some (false, "upload failed"))
    splitAttachment := fun a => ([], a)
    basePathForURL := fun _ => some "f".toList
    validURL := fun _ => true }

/-- Text of 151 characters, one more than the Zenvia SMS maximum. -/
def witText : Str := List.replicate 151 'a'

/-! Helper lemmas. -/

/-- Concatenating the parts of a split reproduces the original text. -/
theorem splitMsg_join (text : Str) (maxLen : Nat) :
    (splitMsg text maxLen).flatten = text := by
  rw [splitMsg]
  by_cases h : text.length ≤ maxLen ∨ maxLen = 0
  · simp [h]
  · simp only [h, if_false, List.flatten_cons]
    rw [splitMsg_join (text.drop maxLen) maxLen]
    exact List.take_append_drop maxLen text
termination_by text.length
decreasing_by
  simp only [List.length_drop]
  omega

/-- Every part of a split is at most the maximum length. -/
theorem splitMsg_part_le (text : Str) (maxLen : Nat) (hpos : 0 < maxLen) :
    ∀ p ∈ splitMsg text maxLen, p.length ≤ maxLen := by
  intro p hp
  rw [splitMsg] at hp
  by_cases h : text.length ≤ maxLen ∨ maxLen = 0
  · simp only [h, if_true, List.mem_singleton] at hp
    subst hp
    rcases h with h | h
    · exact h
    · omega
  · simp only [h, if_false, List.mem_cons] at hp
    rcases hp with hp | hp
    · subst hp
      simp only [List.length_take]
      omega
    · exact splitMsg_part_le (text.drop maxLen) maxLen hpos p hp
termination_by text.length
decreasing_by
  simp only [List.length_drop]
  omega

/-- A split always yields at least one part. -/
theorem splitMsg_ne_nil (text : Str) (maxLen : Nat) :
    ∃ p rest, splitMsg text maxLen = p :: rest := by
  rw [splitMsg]
  by_cases h : text.length ≤ maxLen ∨ maxLen = 0
  · exact ⟨text, [], by simp [h]⟩
  · exact ⟨text.take maxLen, splitMsg (text.drop maxLen) maxLen, by simp [h]⟩

/-- The split of a string without the separator is the single field holding
the whole string. -/
theorem goSplit_eq_single (sep : Char) (s : Str) (h : sep ∉ s) :
    goSplit sep s = [s] := by
  induction s with
  | nil => rfl
  | cons c rest ih =>
    simp only [List.mem_cons, not_or] at h
    have hc : c ≠ sep := fun hc => h.1 hc.symm
    rw [goSplit, ih h.2]
    simp [hc]

/-! Claim theorems. -/

/-- Claim C1, code bug: the spec requires every failure of signature
verification, in particular a malformed or empty public-key configuration
value, to surface as a recoverable error and never as a panic; the code
instead dereferences the nil block returned by pem.Decode for a key value
holding no PEM block, aborting the request with a runtime panic (and the
DER parse failure branch calls panic explicitly). -/
theorem freshchat_validateSignature_panics_on_malformed_key :
    Freshchat.validateSignature nullKeyCrypto true "" "c2ln" "body".toList =
      .panicked "runtime error: invalid memory address or nil pointer dereference" := rfl

/-- Claim C2, code bug: the spec promotes the returned status to wired
only if every part succeeded; slack SendMsg overwrites its error flag with
the outcome of the most recent part only, so a send whose attachment
upload fails (the provider rejects the files.upload call) but whose final
text part succeeds returns a wired status. -/
theorem slack_sendMsg_wired_despite_failed_part :
    (Slack.sendFilePart slackBugEnv 1).2.1 =
      some "error uploading file to slack: upload failed"
    ∧ Slack.sendMsg slackBugEnv "bot-token" ['c'] ['h','i'] [['a']] =
      ⟨some ⟨.wired, [some ⟨"Fetching attachment", none⟩, none,
        some ⟨"Message Sent", none⟩], none⟩, none, 3⟩ :=
  ⟨rfl, rfl⟩

/-- Claim C3: for every text longer than a provider maximum part length
(150 for Zenvia SMS, 1152 for Zenvia WhatsApp), splitting produces parts
whose in-order concatenation reproduces the original text exactly, every
part at most the maximum. -/
theorem splitMsg_lossless_and_bounded (text : Str) (maxLen : Nat)
    (hmax : maxLen = 150 ∨ maxLen = 1152) (_hlong : maxLen < text.length) :
    (splitMsg text maxLen).flatten = text
    ∧ ∀ p ∈ splitMsg text maxLen, p.length ≤ maxLen :=
  ⟨splitMsg_join text maxLen,
   splitMsg_part_le text maxLen (by rcases hmax with h | h <;> omega)⟩

set_option maxRecDepth 10000 in
/-- Witness for C3 at a concrete 151-character text and the SMS maximum. -/
theorem splitMsg_lossless_and_bounded_witness :
    ((150 : Nat) = 150 ∨ (150 : Nat) = 1152) ∧ 150 < witText.length
    ∧ ((splitMsg witText 150).flatten = witText
        ∧ ∀ p ∈ splitMsg witText 150, p.length ≤ 150) :=
  ⟨Or.inl rfl, by decide,
   splitMsg_lossless_and_bounded witText 150 (Or.inl rfl) (by decide)⟩

/-- Claim C4: each provider maps exactly its documented status table
(Zenvia SMS codes 00 to 02 to sent, 03 to delivered, 04 to 10 to errored;
Zenvia WhatsApp REJECTED and NOT_DELIVERED to failed, SENT to sent,
DELIVERED and READ to delivered), and every code whose table lookup misses
maps to errored, never to a success state. -/
theorem statusMapping_tables_and_default_errored :
    (Zenvia.mapStatus "00" = .sent ∧ Zenvia.mapStatus "01" = .sent
      ∧ Zenvia.mapStatus "02" = .sent ∧ Zenvia.mapStatus "03" = .delivered
      ∧ Zenvia.mapStatus "04" = .errored ∧ Zenvia.mapStatus "05" = .errored
      ∧ Zenvia.mapStatus "06" = .errored ∧ Zenvia.mapStatus "07" = .errored
      ∧ Zenvia.mapStatus "08" = .errored ∧ Zenvia.mapStatus "09" = .errored
      ∧ Zenvia.mapStatus "10" = .errored)
    ∧ (ZenviaWhatsapp.mapStatus "REJECTED" = .failed
      ∧ ZenviaWhatsapp.mapStatus "NOT_DELIVERED" = .failed
      ∧ ZenviaWhatsapp.mapStatus "SENT" = .sent
      ∧ ZenviaWhatsapp.mapStatus "DELIVERED" = .delivered
      ∧ ZenviaWhatsapp.mapStatus "READ" = .delivered)
    ∧ (∀ code, Zenvia.statusMapping.lookup code = none →
        Zenvia.mapStatus code = .errored)
    ∧ (∀ code, ZenviaWhatsapp.statusMapping.lookup (goToUpper code) = none →
        ZenviaWhatsapp.mapStatus code = .errored) := by
  refine ⟨by decide, by decide, ?_, ?_⟩
  · intro code h
    simp [Zenvia.mapStatus, h]
  · intro code h
    simp [ZenviaWhatsapp.mapStatus, h]

/-- Witness for C4 at two concrete codes absent from the tables. -/
theorem statusMapping_default_errored_witness :
    Zenvia.statusMapping.lookup "42" = none ∧ Zenvia.mapStatus "42" = .errored
    ∧ ZenviaWhatsapp.statusMapping.lookup (goToUpper "bogus") = none
    ∧ ZenviaWhatsapp.mapStatus "bogus" = .errored :=
  ⟨by decide, statusMapping_tables_and_default_errored.2.2.1 "42" (by decide),
   by decide, statusMapping_tables_and_default_errored.2.2.2 "bogus" (by decide)⟩

/-- Claim C8: a missing required credential (username or password for
Zenvia SMS, API token for Zenvia WhatsApp, agent id or auth token for
FreshChat, bot token for Slack) makes SendMsg return an error immediately,
with no HTTP call attempted and no status object returned. -/
theorem sendMsg_missing_credentials_no_network_call :
    (∀ transport password outText,
      Zenvia.sendMsg transport "" password outText =
        ⟨none, some "no username set for ZV channel", 0⟩)
    ∧ (∀ transport username outText, username ≠ "" →
      Zenvia.sendMsg transport username "" outText =
        ⟨none, some "no password set for ZV channel", 0⟩)
    ∧ (∀ sa transport urnPath text atts cfg,
      ZenviaWhatsapp.sendMsg sa transport "" urnPath text atts cfg =
        ⟨[], none, some "no token set for ZVW channel", 0⟩)
    ∧ (∀ transport authToken urnPath,
      Freshchat.sendMsg transport "" authToken urnPath =
        .returned ⟨none, some "missing agent_id config for FC channel", 0⟩)
    ∧ (∀ transport agentID urnPath, agentID ≠ "" →
      Freshchat.sendMsg transport agentID "" urnPath =
        .returned ⟨none, some "missing auth_token config for FC channel", 0⟩)
    ∧ (∀ env urnPath text atts,
      Slack.sendMsg env "" urnPath text atts =
        ⟨none, some "missing bot token for SL/slack channel", 0⟩) := by
  refine ⟨?_, ?_, ?_, ?_, ?_, ?_⟩
  · intro t p o
    simp [Zenvia.sendMsg]
  · intro t u o h
    simp [Zenvia.sendMsg, h]
  · intro sa t p tx a c
    simp [ZenviaWhatsapp.sendMsg]
  · intro t a p
    simp [Freshchat.sendMsg]
  · intro t a p h
    simp [Freshchat.sendMsg, h]
  · intro e p t a
    simp [Slack.sendMsg]

/-- Witness for C8 at concrete channels each missing one credential. -/
theorem sendMsg_missing_credentials_witness :
    Zenvia.sendMsg (fun _ => .err "x") "" "pw" [] =
      ⟨none, some "no username set for ZV channel", 0⟩
    ∧ Zenvia.sendMsg (fun _ => .err "x") "user" "" [] =
      ⟨none, some "no password set for ZV channel", 0⟩
    ∧ ZenviaWhatsapp.sendMsg (fun a => ([], a)) (.err "x") "" [] [] [] none =
      ⟨[], none, some "no token set for ZVW channel", 0⟩
    ∧ Freshchat.sendMsg .ok "" "tok" [] =
      .returned ⟨none, some "missing agent_id config for FC channel", 0⟩
    ∧ Freshchat.sendMsg .ok "agent7" "" [] =
      .returned ⟨none, some "missing auth_token config for FC channel", 0⟩
    ∧ Slack.sendMsg slackFailEnv "" [] [] [] =
      ⟨none, some "missing bot token for SL/slack channel", 0⟩ :=
  ⟨sendMsg_missing_credentials_no_network_call.1 _ _ _,
   sendMsg_missing_credentials_no_network_call.2.1 _ _ _ (by decide),
   sendMsg_missing_credentials_no_network_call.2.2.1 _ _ _ _ _ _,
   sendMsg_missing_credentials_no_network_call.2.2.2.1 _ _ _,
   sendMsg_missing_credentials_no_network_call.2.2.2.2.1 _ _ _ (by decide),
   sendMsg_missing_credentials_no_network_call.2.2.2.2.2 _ _ _ _⟩

/-- Claim C9: the FreshChat send pipeline requires the destination URN
path to carry a "/" separating channel id and user id; credentials being
present, a path without "/" makes the payload construction index the
second field of a one-field split, a Go index out of range panic, before
any HTTP call. -/
theorem freshchat_sendMsg_urn_without_slash_panics
    (transport : Freshchat.TransportResult) (agentID authToken : String)
    (urnPath : Str) (h1 : agentID ≠ "") (h2 : authToken ≠ "")
    (h3 : '/' ∉ urnPath) :
    Freshchat.sendMsg transport agentID authToken urnPath =
      .panicked "runtime error: index out of range" 0 := by
  simp only [Freshchat.sendMsg, if_neg h1, if_neg h2]
  rw [goSplit_eq_single '/' urnPath h3]
  simp

/-- Witness for C9 at a concrete slash-free path. -/
theorem freshchat_sendMsg_urn_without_slash_panics_witness :
    (("agent7" : String) ≠ "" ∧ ("tok" : String) ≠ ""
      ∧ '/' ∉ ("user9".toList : Str))
    ∧ Freshchat.sendMsg .ok "agent7" "tok" "user9".toList =
      .panicked "runtime error: index out of range" 0 :=
  ⟨⟨by decide, by decide, by decide⟩,
   freshchat_sendMsg_urn_without_slash_panics .ok "agent7" "tok" "user9".toList
     (by decide) (by decide) (by decide)⟩

/-- Counterexample to claim C6 as stated: a transport-level failure on the
single zenviawhatsapp send call is captured in the returned log trail and
the status stays errored, but the returned error value is nil, not the
non-nil error value the claim requires. -/
theorem zvw_sendMsg_network_error_returns_nil_error :
    ZenviaWhatsapp.sendMsg (fun a => ([], a)) (.err "connection refused")
      "token-abc" [] ['h','i'] [] none =
      ⟨[⟨"text", ['h','i'], [], []⟩],
       some ⟨.errored, [some ⟨"Message Sent", some "connection refused"⟩], none⟩,
       none, 1⟩ := by
  simp [ZenviaWhatsapp.sendMsg, splitMsgByChannel, splitMsg]

/-- Claim C6 as amended: a transport-level or provider payload-level
failure on the first transmitted part is captured into the returned
MsgStatus log trail (the exchange, with any transport error) and, provided
no later part overwrites the outcome (Zenvia SMS aborts at the failing
part, Zenvia WhatsApp and FreshChat send a single request, for Slack the
failing part must also be the last since a later successful part wires the
status, the C2 defect), the returned status is not wired; Zenvia SMS and
FreshChat return a non-nil error value (FreshChat has no payload-level
failure branch: it never inspects the response body), while Zenvia
WhatsApp and Slack return a nil error value.  The Slack conjuncts cover
every failing outcome of the part call, transport-level and payload-level
alike, through the error projection of the part helper. -/
theorem sendMsg_failures_logged_nonwired :
    (∀ transport username password outText e, username ≠ "" → password ≠ "" →
      transport 0 = Zenvia.Resp.err e →
      Zenvia.sendMsg transport username password outText =
        ⟨some ⟨.errored, [some ⟨"Message Sent", some e⟩], none⟩, some e, 1⟩)
    ∧ (∀ transport username password outText code?, username ≠ "" →
      password ≠ "" → transport 0 = Zenvia.Resp.ok code? →
      (Zenvia.statusMapping.lookup (code?.getD "") = none
        ∨ Zenvia.statusMapping.lookup (code?.getD "") = some .errored) →
      Zenvia.sendMsg transport username password outText =
        ⟨some ⟨.errored, [some ⟨"Message Sent", none⟩], none⟩,
         some ("received non-success response from Zenvia " ++ code?.getD ""),
         1⟩)
    ∧ (∀ transport agentID authToken urnPath e, agentID ≠ "" → authToken ≠ "" →
      ¬ (goSplit '/' urnPath).length < 2 →
      transport = Freshchat.TransportResult.err e →
      Freshchat.sendMsg transport agentID authToken urnPath =
        .returned ⟨some ⟨.errored, [some ⟨"Message Sent", some e⟩], none⟩,
          some e, 1⟩)
    ∧ (∀ sa token urnPath text atts cfg e, token ≠ "" →
      ∃ contents, ZenviaWhatsapp.sendMsg sa (.err e) token urnPath text atts cfg =
        ⟨contents, some ⟨.errored, [some ⟨"Message Sent", some e⟩], none⟩,
         none, 1⟩)
    ∧ (∀ sa token urnPath text atts cfg, token ≠ "" →
      ∃ contents, ZenviaWhatsapp.sendMsg sa (.ok none) token urnPath text atts cfg =
        ⟨contents, some ⟨.errored,
          [some ⟨"Message Sent", some "unable to get id from body"⟩], none⟩,
         none, 1⟩)
    ∧ (∀ (env : Slack.Env) botToken urnPath text, botToken ≠ "" → text ≠ [] →
      (Slack.sendTextMsgPart env 0).2.1 ≠ none →
      Slack.sendMsg env botToken urnPath text [] =
        ⟨some ⟨.errored, [(Slack.sendTextMsgPart env 0).1], none⟩, none,
         (Slack.sendTextMsgPart env 0).2.2⟩)
    ∧ (∀ (env : Slack.Env) botToken urnPath a, botToken ≠ "" →
      (Slack.parseAttachmentToFileParams env 0 urnPath a).1.isSome →
      (Slack.sendFilePart env
        (Slack.parseAttachmentToFileParams env 0 urnPath a).2.2.2).2.1 ≠ none →
      Slack.sendMsg env botToken urnPath [] [a] =
        ⟨some ⟨.errored,
          [(Slack.parseAttachmentToFileParams env 0 urnPath a).2.1,
           (Slack.sendFilePart env
             (Slack.parseAttachmentToFileParams env 0 urnPath a).2.2.2).1],
          none⟩, none,
         (Slack.sendFilePart env
           (Slack.parseAttachmentToFileParams env 0 urnPath a).2.2.2).2.2⟩) := by
  refine ⟨?_, ?_, ?_, ?_, ?_, ?_, ?_⟩
  · intro transport username password outText e h1 h2 ht
    obtain ⟨p, rest, hsplit⟩ := splitMsg_ne_nil outText 150
    simp [Zenvia.sendMsg, h1, h2, hsplit, Zenvia.sendLoop, ht]
  · intro transport username password outText code? h1 h2 ht hl
    obtain ⟨p, rest, hsplit⟩ := splitMsg_ne_nil outText 150
    rcases hl with hl | hl <;>
      simp [Zenvia.sendMsg, h1, h2, hsplit, Zenvia.sendLoop, ht, hl]
  · intro transport agentID authToken urnPath e h1 h2 h3 ht
    subst ht
    simp [Freshchat.sendMsg, h1, h2, h3]
  · intro sa token urnPath text atts cfg e h
    refine ⟨(atts.map fun a => ⟨"file", [], (sa a).2, (sa a).1⟩) ++
      ((if text ≠ [] then splitMsgByChannel cfg text 1152 else []).map
        fun q => ⟨"text", q, [], []⟩), ?_⟩
    simp [ZenviaWhatsapp.sendMsg, h]
  · intro sa token urnPath text atts cfg h
    refine ⟨(atts.map fun a => ⟨"file", [], (sa a).2, (sa a).1⟩) ++
      ((if text ≠ [] then splitMsgByChannel cfg text 1152 else []).map
        fun q => ⟨"text", q, [], []⟩), ?_⟩
    simp [ZenviaWhatsapp.sendMsg, h]
  · intro env botToken urnPath text h1 h2 hfail
    have hs : ((Slack.sendTextMsgPart env 0).2.1).isSome :=
      Option.isSome_iff_ne_none.mpr hfail
    simp [Slack.sendMsg, h1, h2, hs]
  · intro env botToken urnPath a h1 hfp hfail
    obtain ⟨fp, hfp2⟩ := Option.isSome_iff_exists.mp hfp
    have hs : ((Slack.sendFilePart env
        (Slack.parseAttachmentToFileParams env 0 urnPath a).2.2.2).2.1).isSome :=
      Option.isSome_iff_ne_none.mpr hfail
    simp [Slack.sendMsg, h1, Slack.attachmentStep, hfp2, hs]

/-- Witness for the amended C6 at concrete failing sends: Zenvia SMS
transport and provider failures, a FreshChat transport failure, a Zenvia
WhatsApp transport failure and missing response id, a Slack rejected text
part and a Slack rejected attachment upload. -/
theorem sendMsg_failures_logged_nonwired_witness :
    Zenvia.sendMsg (fun _ => .err "connection refused") "user" "pw" [] =
      ⟨some ⟨.errored, [some ⟨"Message Sent", some "connection refused"⟩], none⟩,
       some "connection refused", 1⟩
    ∧ Zenvia.sendMsg (fun _ => .ok (some "04")) "user" "pw" [] =
      ⟨some ⟨.errored, [some ⟨"Message Sent", none⟩], none⟩,
       some ("received non-success response from Zenvia " ++ (some "04").getD ""),
       1⟩
    ∧ Freshchat.sendMsg (.err "connection refused") "agent7" "tok" "c7/u9".toList =
      .returned ⟨some ⟨.errored,
        [some ⟨"Message Sent", some "connection refused"⟩], none⟩,
        some "connection refused", 1⟩
    ∧ (∃ contents, ZenviaWhatsapp.sendMsg (fun a => ([], a))
        (.err "connection refused") "tok" [] ['h','i'] [] none =
        ⟨contents, some ⟨.errored,
          [some ⟨"Message Sent", some "connection refused"⟩], none⟩, none, 1⟩)
    ∧ (∃ contents, ZenviaWhatsapp.sendMsg (fun a => ([], a))
        (.ok none) "tok" [] ['h','i'] [] none =
        ⟨contents, some ⟨.errored,
          [some ⟨"Message Sent", some "unable to get id from body"⟩], none⟩,
         none, 1⟩)
    ∧ Slack.sendMsg slackFailEnv "bot" [] ['h'] [] =
      ⟨some ⟨.errored, [(Slack.sendTextMsgPart slackFailEnv 0).1], none⟩, none,
       (Slack.sendTextMsgPart slackFailEnv 0).2.2⟩
    ∧ Slack.sendMsg slackPostFailEnv "bot" [] ['h'] [] =
      ⟨some ⟨.errored, [(Slack.sendTextMsgPart slackPostFailEnv 0).1], none⟩,
       none, (Slack.sendTextMsgPart slackPostFailEnv 0).2.2⟩
    ∧ Slack.sendMsg slackUploadFailEnv "bot" [] [] [['a']] =
      ⟨some ⟨.errored,
        [(Slack.parseAttachmentToFileParams slackUploadFailEnv 0 [] ['a']).2.1,
         (Slack.sendFilePart slackUploadFailEnv
           (Slack.parseAttachmentToFileParams slackUploadFailEnv 0 [] ['a']).2.2.2).1],
        none⟩, none,
       (Slack.sendFilePart slackUploadFailEnv
         (Slack.parseAttachmentToFileParams slackUploadFailEnv 0 [] ['a']).2.2.2).2.2⟩ :=
  ⟨sendMsg_failures_logged_nonwired.1 _ _ _ _ _ (by decide) (by decide) rfl,
   sendMsg_failures_logged_nonwired.2.1 _ _ _ _ (some "04") (by decide)
     (by decide) rfl (Or.inr (by decide)),
   sendMsg_failures_logged_nonwired.2.2.1 _ _ _ _ _ (by decide) (by decide)
     (by decide) rfl,
   sendMsg_failures_logged_nonwired.2.2.2.1 _ _ _ _ _ _ _ (by decide),
   sendMsg_failures_logged_nonwired.2.2.2.2.1 _ _ _ _ _ _ (by decide),
   sendMsg_failures_logged_nonwired.2.2.2.2.2.1 slackFailEnv _ _ _ (by decide)
     (by decide) (by decide),
   sendMsg_failures_logged_nonwired.2.2.2.2.2.1 slackPostFailEnv _ _ _
     (by decide) (by decide) (by decide),
   sendMsg_failures_logged_nonwired.2.2.2.2.2.2 slackUploadFailEnv _ _ _
     (by decide) (by decide) (by decide)⟩

/-- Counterexample to claim C7 as stated: an inbound zenviawhatsapp event
whose declared type is MESSAGE_STATUS, hence not an inbound user message,
is rejected with an error response instead of being acknowledged as
ignored. -/
theorem zvw_receiveMessage_unsupported_type_is_error :
    ZenviaWhatsapp.receiveMessage zvwTestEnv zvwStatusTypePayload =
      .error "unsupported event type: MESSAGE_STATUS" := by
  rfl

/-- Claim C7 as amended: events dropped by a relevance filter produce zero
canonical messages and are acknowledged as ignored, never as an error, for
the filters no message content (empty actor id), agent-originated message,
and declared direction not incoming; an event whose declared type is not a
message is instead rejected with an error response. -/
theorem inbound_filters_ignored_ack :
    (∀ (env : Freshchat.Env) flag cfg hdr body (p : Freshchat.MoPayload) m schemes,
      Freshchat.validateSignature env.crypto flag cfg hdr body = .ok →
      p.message = some m → m.actorID = [] →
      Freshchat.receiveMessage env flag cfg hdr body (some p) schemes =
        .ignored "Ignoring request, no message")
    ∧ (∀ (env : Freshchat.Env) flag cfg hdr body (p : Freshchat.MoPayload) m schemes,
      Freshchat.validateSignature env.crypto flag cfg hdr body = .ok →
      p.message = some m → m.actorID ≠ [] → m.actorType = "agent" →
      Freshchat.receiveMessage env flag cfg hdr body (some p) schemes =
        .ignored "Ignoring request, Agent Message")
    ∧ (∀ (g : Type) (env : ZenviaWhatsapp.Env g)
        (payload : ZenviaWhatsapp.MoPayload g) d,
      goToUpper payload.type = "MESSAGE" →
      env.parseTimestamp payload.timestamp = some d →
      goToUpper payload.message.direction ≠ "IN" →
      ZenviaWhatsapp.receiveMessage env payload =
        .ignored "ignoring request, not incoming messages")
    ∧ (∀ note, eventMsgs (HandlerOutcome.ignored note) = []) := by
  refine ⟨?_, ?_, ?_, fun _ => rfl⟩
  · intro env flag cfg hdr body p m schemes hsig hm ha
    simp [Freshchat.receiveMessage, hsig, hm, ha]
  · intro env flag cfg hdr body p m schemes hsig hm ha hat
    simp [Freshchat.receiveMessage, hsig, hm, ha, hat]
  · intro g env payload d ht hd hdir
    simp [ZenviaWhatsapp.receiveMessage, ht, hd, hdir]

/-- Witness for the amended C7 at concrete dropped events. -/
theorem inbound_filters_ignored_ack_witness :
    Freshchat.receiveMessage fcTestEnv false "" "" [] (some fcNoMsgPayload)
      ["freshchat"] = .ignored "Ignoring request, no message"
    ∧ Freshchat.receiveMessage fcTestEnv false "" "" [] (some fcAgentPayload)
      ["freshchat"] = .ignored "Ignoring request, Agent Message"
    ∧ ZenviaWhatsapp.receiveMessage zvwTestEnv zvwOutPayload =
      .ignored "ignoring request, not incoming messages"
    ∧ eventMsgs (HandlerOutcome.ignored "Ignoring request, no message") = [] :=
  ⟨inbound_filters_ignored_ack.1 fcTestEnv false "" "" [] fcNoMsgPayload _
     ["freshchat"] rfl rfl rfl,
   inbound_filters_ignored_ack.2.1 fcTestEnv false "" "" [] fcAgentPayload _
     ["freshchat"] rfl rfl (by decide) rfl,
   inbound_filters_ignored_ack.2.2.1 Nat zvwTestEnv zvwOutPayload 45
     (by decide) (by decide) (by decide),
   inbound_filters_ignored_ack.2.2.2 "Ignoring request, no message"⟩

/-- Claim C5: an inbound zenviawhatsapp event that passes the type,
timestamp, direction and URN steps fans out into exactly one canonical
message per content part, each sharing the sender URN, received instant,
contact name and external id, with text, file and location parts populating
their message as documented. -/
theorem zvw_receiveMessage_fanout {g : Type} (env : ZenviaWhatsapp.Env g)
    (payload : ZenviaWhatsapp.MoPayload g) (urn : URN) (date : Nat)
    (ht : goToUpper payload.type = "MESSAGE")
    (hd : env.parseTimestamp payload.timestamp = some date)
    (hdir : goToUpper payload.message.direction = "IN")
    (hu : env.newWhatsAppURN payload.message.fromAddr = some urn) :
    ZvwFanoutProp env payload urn date := by
  have hrec : ZenviaWhatsapp.receiveMessage env payload =
      .msgs (payload.message.contents.map
        (ZenviaWhatsapp.contentMsg env urn date payload.message.id
          payload.visitorName)) := by
    simp [ZenviaWhatsapp.receiveMessage, ht, hd, hdir, hu]
  refine ⟨_, hrec, by simp, ?_, ?_⟩
  · intro m hm
    rw [List.mem_map] at hm
    obtain ⟨c, _, rfl⟩ := hm
    simp only [ZenviaWhatsapp.contentMsg]
    split_ifs <;>
      simp [withAttachment, withContactName, withReceivedOn, withExternalID,
        newIncomingMsg]
  · intro i c m hc hm
    rw [List.get?_map, hc] at hm
    simp at hm
    subst hm
    refine ⟨?_, ?_, ?_⟩
    · intro hct
      simp [ZenviaWhatsapp.contentMsg, hct, withAttachment, withContactName,
        withReceivedOn, withExternalID, newIncomingMsg]
    · intro hct
      by_cases hurl : c.fileURL = []
      · simp [ZenviaWhatsapp.contentMsg, hct, hurl, withAttachment,
          withContactName, withReceivedOn, withExternalID, newIncomingMsg]
      · simp [ZenviaWhatsapp.contentMsg, hct, hurl, withAttachment,
          withContactName, withReceivedOn, withExternalID, newIncomingMsg]
    · intro hct
      have hgeo : ZenviaWhatsapp.geoURL env c ≠ [] := by
        simp [ZenviaWhatsapp.geoURL]
      simp [ZenviaWhatsapp.contentMsg, hct, hgeo, withAttachment,
        withContactName, withReceivedOn, withExternalID, newIncomingMsg]

/-- Witness for C5 at a concrete three-part event (text, file, location). -/
theorem zvw_receiveMessage_fanout_witness :
    goToUpper zvwFanoutPayload.type = "MESSAGE"
    ∧ zvwTestEnv.parseTimestamp zvwFanoutPayload.timestamp = some 45
    ∧ goToUpper zvwFanoutPayload.message.direction = "IN"
    ∧ zvwTestEnv.newWhatsAppURN zvwFanoutPayload.message.fromAddr = some zvwWitURN
    ∧ ZvwFanoutProp zvwTestEnv zvwFanoutPayload zvwWitURN 45 :=
  ⟨by decide, by decide, by decide, by decide,
   zvw_receiveMessage_fanout zvwTestEnv zvwFanoutPayload zvwWitURN 45
     (by decide) (by decide) (by decide) (by decide)⟩

/-- Defaulted image of the last element of a list mapped through a
function: prepending an element moves it into the default slot because a
non-empty tail keeps its own last element. -/
theorem getLast?_map_getD_cons {β γ : Type} (f : β → γ) (x : β) (l : List β)
    (d : γ) :
    (((x :: l).getLast?).map f).getD d = ((l.getLast?).map f).getD (f x) := by
  cases l with
  | nil => rfl
  | cons y ys =>
    have hne : (y :: ys).getLast?.isSome := by
      rw [List.getLast?_isSome]
      simp
    obtain ⟨a, ha⟩ := Option.isSome_iff_exists.mp hne
    rw [List.getLast?_cons_cons, ha]
    rfl

/-- The last-wins fold of the freshchat receive loop computes the content
of the last text part and the URL of the last image part, with the
accumulator as default. -/
theorem partsFold_eq (parts : List Freshchat.MessagePart) (t0 m0 : Str) :
    parts.foldl Freshchat.partsFold (t0, m0) =
      ((((parts.filterMap Freshchat.MessagePart.text).getLast?).map
          Freshchat.TextPart.content).getD t0,
       (((parts.filterMap Freshchat.MessagePart.image).getLast?).map
          Freshchat.ImagePart.url).getD m0) := by
  induction parts generalizing t0 m0 with
  | nil => rfl
  | cons p ps ih =>
    rcases hpt : p.text with _ | t <;> rcases hpi : p.image with _ | i <;>
      simp only [List.foldl_cons, Freshchat.partsFold, hpt, hpi, ih,
        List.filterMap_cons, getLast?_map_getD_cons]

/-- Specialization of the fold lemma to the empty initial accumulators the
handler uses. -/
theorem partsFold_eq_last (parts : List Freshchat.MessagePart) :
    parts.foldl Freshchat.partsFold ([], []) =
      (lastTextOf parts, lastImageOf parts) := by
  rw [partsFold_eq]
  rfl

/-- Claim C10: the freshchat inbound handler collapses every webhook event
into exactly one canonical message: the text of the last text part and the
URL of the last image part win, earlier parts are discarded, and the
message carries at most one attachment. -/
theorem freshchat_receiveMessage_single_msg_last_part_wins
    (env : Freshchat.Env) (flag : Bool) (cfg hdr : String) (body : Str)
    (p : Freshchat.MoPayload) (m : Freshchat.Message) (scheme : String)
    (rest : List String) (urn : URN)
    (hsig : Freshchat.validateSignature env.crypto flag cfg hdr body = .ok)
    (hm : p.message = some m) (ha : m.actorID ≠ []) (hat : m.actorType ≠ "agent")
    (hu : env.newURNFromParts scheme (m.channelID ++ ('/' :: m.actorID)) =
      some urn) :
    Freshchat.receiveMessage env flag cfg hdr body (some p) (scheme :: rest) =
      .msgs [{ urn := urn, text := lastTextOf m.messageParts,
               attachments := if lastImageOf m.messageParts = [] then []
                 else [lastImageOf m.messageParts],
               externalID := none, receivedOn := some m.createdTime,
               contactName := none }]
    ∧ ∀ ms, Freshchat.receiveMessage env flag cfg hdr body (some p)
        (scheme :: rest) = .msgs ms →
      ms.length = 1 ∧ ∀ mm ∈ ms, mm.attachments.length ≤ 1 := by
  have heq : Freshchat.receiveMessage env flag cfg hdr body (some p)
      (scheme :: rest) =
      .msgs [{ urn := urn, text := lastTextOf m.messageParts,
               attachments := if lastImageOf m.messageParts = [] then []
                 else [lastImageOf m.messageParts],
               externalID := none, receivedOn := some m.createdTime,
               contactName := none }] := by
    by_cases himg : lastImageOf m.messageParts = [] <;>
      simp [Freshchat.receiveMessage, hsig, hm, ha, hat, hu, partsFold_eq_last,
        newIncomingMsg, withReceivedOn, withAttachment, himg]
  refine ⟨heq, ?_⟩
  intro ms hms
  rw [heq] at hms
  injection hms with hms
  subst hms
  refine ⟨rfl, ?_⟩
  intro mm hmm
  rw [List.mem_singleton] at hmm
  subst hmm
  by_cases himg : lastImageOf m.messageParts = [] <;> simp [himg]

/-- Witness for C10 at a concrete event with two text parts and two image
parts. -/
theorem freshchat_receiveMessage_single_msg_witness :
    Freshchat.validateSignature fcTestEnv.crypto false "" "" [] = .ok
    ∧ fcPartsPayload.message = some fcPartsMessage
    ∧ (Freshchat.receiveMessage fcTestEnv false "" "" [] (some fcPartsPayload)
        ["freshchat"] =
      .msgs [{ urn := fcWitURN, text := lastTextOf fcPartsMessage.messageParts,
               attachments := if lastImageOf fcPartsMessage.messageParts = []
                 then [] else [lastImageOf fcPartsMessage.messageParts],
               externalID := none, receivedOn := some fcPartsMessage.createdTime,
               contactName := none }]
      ∧ ∀ ms, Freshchat.receiveMessage fcTestEnv false "" "" []
          (some fcPartsPayload) ["freshchat"] = .msgs ms →
        ms.length = 1 ∧ ∀ mm ∈ ms, mm.attachments.length ≤ 1) :=
  ⟨rfl, rfl,
   freshchat_receiveMessage_single_msg_last_part_wins fcTestEnv false "" "" []
     fcPartsPayload fcPartsMessage "freshchat" [] fcWitURN rfl rfl (by decide)
     (by decide) (by decide)⟩

end Courier
